import Mathlib

/-!
Shallow embedding of the knight-agent NATS task dispatcher, translated from
`src/nats.ts` and `src/agent.ts`.

Modelling conventions:
  * JSON runtime values are the inductive `Json`. JavaScript `undefined` is
    represented by `Option Json` being `none`; JSON `null` is `Json.null`.
    JSON numbers are modelled as integers (no claim depends on fractional
    values).
  * `JSON.parse` is external; its outcome is passed in as `Option Json`
    (`none` = the parse threw). Property access on the parse result of the
    literal `null` throws in JavaScript; `parseTryBody` returns `none` in
    that case, which the surrounding try/catch turns into the plain-text
    fallback, exactly as in the source.
  * The nullish-coalescing operator `a ?? b` (skips `undefined` and `null`)
    is `jqq` (result possibly undefined) / `jqqV` (chain ending in a defined
    value).
  * Awaited external calls that may throw are passed in as `Except String`
    values; `try`/`catch` blocks become `match` on them.
  * The JavaScript event loop interleaving of the dispatch loop(s) and task
    completions is modelled as a small-step transition relation (`DStep` for
    one subscription loop, `MStep` for several).
-/

/-- A JSON runtime value (JavaScript object model restricted to JSON). -/
inductive Json where
  | null : Json
  | bool : Bool → Json
  | num : Int → Json
  | str : String → Json
  | arr : List Json → Json
  | obj : List (String × Json) → Json
deriving BEq

/-- First-match field lookup in an object field list (objects produced by
`JSON.parse` have unique keys, so first-match equals JavaScript lookup). -/
def lookupField : List (String × Json) → String → Option Json
  | [], _ => none
  | (k, v) :: rest, key => if k == key then some v else lookupField rest key

/-- JavaScript property access `j.k`: `none` models `undefined`. -/
def jget (j : Json) (k : String) : Option Json :=
  match j with
  | Json.obj fields => lookupField fields k
  | _ => none

/-- `a ?? b` where both sides may be undefined: `null` and `undefined` on the
left fall through to the right, which is returned as-is. -/
def jqq (a : Option Json) (b : Option Json) : Option Json :=
  match a with
  | none => b
  | some Json.null => b
  | some v => some v

/-- `a ?? b` where the chain ends in a defined value. -/
def jqqV (a : Option Json) (b : Json) : Json :=
  match a with
  | none => b
  | some Json.null => b
  | some v => v

/-- Whether a JSON value is a string. -/
def Json.isString : Json → Bool
  | Json.str _ => true
  | _ => false

/-- Whether a JSON value is the literal `null`. -/
def Json.isNull : Json → Bool
  | Json.null => true
  | _ => false

mutual
/-- JavaScript string coercion (template-literal interpolation) of a JSON
value: strings pass through, arrays join with commas, objects render as
the generic object tag. -/
def jsStringOf : Json → String
  | Json.null => "null"
  | Json.bool b => cond b "true" "false"
  | Json.num n => toString n
  | Json.str s => s
  | Json.arr xs => jsArrJoin xs
  | Json.obj _ => "[object Object]"

/-- JavaScript `Array.prototype.join(",")`: `null` elements become empty. -/
def jsArrJoin : List Json → String
  | [] => ""
  | [Json.null] => ""
  | [x] => jsStringOf x
  | Json.null :: y :: xs => "," ++ jsArrJoin (y :: xs)
  | x :: y :: xs => jsStringOf x ++ "," ++ jsArrJoin (y :: xs)
end

/-- Parsed task metadata (`TaskRequest.metadata` in `agent.ts`). `taskId` and
`domain` are always assigned by `parseTaskMessage`; the remaining fields may
be `undefined` (`none`). Values are kept as the untyped JSON runtime values
the code actually stores. -/
structure TaskMeta where
  taskId : Json
  domain : Json
  replySubject : Option Json
  knight : Option Json
  skill : Option Json
  skillContent : Option Json

/-- A parsed task request (`TaskRequest` in `agent.ts`), as produced by
`parseTaskMessage` in `nats.ts`. -/
structure TaskRequest where
  message : Json
  metadata : TaskMeta

/-- JavaScript `subject.split(".")` for the single-character separator used
by the source: splitting the character list on dots; an empty string yields
`[""]`, matching JavaScript. -/
def splitDotAux : List Char → String → List String
  | [], acc => [acc]
  | c :: rest, acc =>
      if c = '.' then acc :: splitDotAux rest "" else splitDotAux rest (acc.push c)

/-- `subject.split(".")`. -/
def splitDot (s : String) : List String :=
  splitDotAux s.data ""

/-- `nats.ts` `subjectTail`: last segment of a NATS subject
(`subject.split(".").pop() ?? "unknown"`). -/
def subjectTail (subject : String) : String :=
  match (splitDot subject).getLast? with
  | some s => s
  | none => "unknown"

/-- `nats.ts` `subjectDomain`: third segment of a fleet subject
(`subject.split(".")[2] ?? "general"`). -/
def subjectDomain (subject : String) : String :=
  (splitDot subject).getD 2 "general"

/-- Body of the `try` block of `parseTaskMessage` (`nats.ts` lines 53-76),
given the successful `JSON.parse` result. Returns `none` when the body
throws, which happens exactly when the parse result is the literal `null`
(the first property access `parsed.message` throws a TypeError). -/
def parseTryBody (parsed : Json) (data subject : String) : Option TaskRequest :=
  match parsed with
  | Json.null => none
  | _ =>
    let message := jqqV (jget parsed "message") (jqqV (jget parsed "task") (Json.str data))
    let meta := jqqV (jget parsed "metadata") (Json.obj [])
    let taskId :=
      jqqV (jget parsed "taskId")
        (jqqV (jget parsed "task_id")
          (jqqV (jget meta "taskId")
            (jqqV (jget meta "task_id") (Json.str (subjectTail subject)))))
    let domain :=
      jqqV (jget parsed "domain")
        (jqqV (jget meta "domain") (Json.str (subjectDomain subject)))
    some
      { message := message
        metadata :=
          { taskId := taskId
            domain := domain
            replySubject :=
              jqq (jget parsed "replySubject")
                (jqq (jget parsed "reply_subject") (jget meta "replySubject"))
            knight := jqq (jget parsed "knight") (jget meta "knight")
            skill := jqq (jget parsed "skill") (jget meta "skill")
            skillContent := jqq (jget parsed "skillContent") (jget meta "skillContent") } }

/-- `nats.ts` `parseTaskMessage`: `parseResult` is the outcome of
`JSON.parse(data)` (`none` = the parse threw). Any throw inside the `try`
block falls back to the plain-text branch of the `catch`. -/
def parseTaskMessage (parseResult : Option Json) (data subject : String) : TaskRequest :=
  match parseResult.bind (fun parsed => parseTryBody parsed data subject) with
  | some req => req
  | none =>
      { message := Json.str data
        metadata :=
          { taskId := Json.str (subjectTail subject)
            domain := Json.str (subjectDomain subject)
            replySubject := none
            knight := none
            skill := none
            skillContent := none } }

/-- `agent.ts` `TaskResult`, as consumed by `processMessage`. Optional
fields are `undefined` when absent. -/
structure TaskResult where
  success : Bool
  output : String
  error : Option String
  taskId : Option String
  cost : Option Int
  tokens : Option (Int × Int)
  durationMs : Int
  model : Option String

/-- Outcome of iterating the SDK `query(...)` call inside `executeTask`
(`agent.ts` lines 152-171): either the iteration finishes (with whatever the
message handlers accumulated) or it throws. `signalAborted` is the value of
`abortController.signal.aborted` observed in the `catch` block; the deadline
timer aborting the controller makes the iteration throw with
`signalAborted = true`. -/
inductive QueryOutcome where
  | finishes (isError : Bool) (output : String) (sdkError : Option String)
      (cost : Int) (inputTokens outputTokens : Int) (model : Option String)
  | throws (errMsg : String) (signalAborted : Bool) (sdkError : Option String)
      (cost : Int) (inputTokens outputTokens : Int) (model : Option String)

/-- The result-producing tail of `executeTask` (`agent.ts` lines 152-236):
given the query outcome, produce the returned `TaskResult` together with the
`errorType` classification computed in the `catch` block (empty string when
no throw occurred; the classification is only logged, never returned). -/
def executeTaskCore (q : QueryOutcome) (taskId : String) (durationMs : Int) :
    TaskResult × String :=
  match q with
  | QueryOutcome.finishes isError output sdkError cost it ot model =>
      if isError then
        ({ success := false
           output := ""
           error := some (sdkError.getD "Unknown SDK error")
           taskId := some taskId
           cost := some cost
           tokens := some (it, ot)
           durationMs := durationMs
           model := model }, "")
      else
        ({ success := true
           output := output
           error := none
           taskId := some taskId
           cost := some cost
           tokens := some (it, ot)
           durationMs := durationMs
           model := model }, "")
  | QueryOutcome.throws errMsg aborted sdkError cost it ot model =>
      let errorType := if aborted then "timeout" else "execution_error"
      let detailedError :=
        match sdkError with
        | some d => errMsg ++ " — SDK detail: " ++ d
        | none => errMsg
      ({ success := false
         output := ""
         error := some detailedError
         taskId := some taskId
         cost := some cost
         tokens := some (it, ot)
         durationMs := durationMs
         model := model }, errorType)

/-- What happened to the JetStream message at the end of `processMessage`. -/
inductive AckAction where
  | ack : AckAction
  | nak : Int → AckAction
deriving DecidableEq

/-- Observable effect of one `processMessage` run: the `(subject, payload)`
pairs passed to `nc.publish`, and the final ack/nak. -/
structure ProcEffect where
  publishes : List (Json × Json)
  ackAction : AckAction

/-- A field of a JSON object literal whose value may be `undefined`:
`JSON.stringify` omits such keys. -/
def optField (k : String) (v : Option Json) : List (String × Json) :=
  match v with
  | none => []
  | some x => [(k, x)]

/-- The success-path result payload (`nats.ts` lines 222-232), in the object
literal key order used by `JSON.stringify`. -/
def successPayloadFields (task : TaskRequest) (agentId : String) (result : TaskResult) :
    List (String × Json) :=
  [("taskId", task.metadata.taskId),
   ("knight", Json.str agentId),
   ("success", Json.bool result.success),
   ("output", Json.str result.output)]
  ++ optField "error" (result.error.map Json.str)
  ++ optField "cost" (result.cost.map Json.num)
  ++ optField "tokens"
      (result.tokens.map (fun t => Json.obj [("input", Json.num t.1), ("output", Json.num t.2)]))
  ++ [("durationMs", Json.num result.durationMs)]
  ++ optField "model" (result.model.map Json.str)

/-- The error-path result payload (`nats.ts` lines 259-265). Note it carries
no `durationMs`, `cost`, `tokens` or `model` keys. -/
def errorPayloadFields (task : TaskRequest) (agentId : String) (errMsg : String) :
    List (String × Json) :=
  [("taskId", task.metadata.taskId),
   ("knight", Json.str agentId),
   ("success", Json.bool false),
   ("error", Json.str errMsg),
   ("output", Json.str "")]

/-- The template-literal segment `${task.metadata?.taskId ?? "unknown"}`:
`null`/`undefined` fall back to `"unknown"`, any other value is coerced to a
string. (`taskId` is always defined after `parseTaskMessage`.) -/
def taskIdSegment (taskId : Json) : String :=
  match taskId with
  | Json.null => "unknown"
  | t => jsStringOf t

/-- The `catch` block of `processMessage` (`nats.ts` lines 246-271): re-parse
the message, recompute the reply subject, publish the error payload, then
negative-acknowledge with a 10 000 ms delay. -/
def errorPathEffect (parseResult : Option Json) (data subject fleetId agentId errMsg : String) :
    ProcEffect :=
  let task := parseTaskMessage parseResult data subject
  let resultSubject :=
    jqqV task.metadata.replySubject
      (Json.str (fleetId ++ ".results." ++ taskIdSegment task.metadata.taskId))
  { publishes := [(resultSubject, Json.obj (errorPayloadFields task agentId errMsg))]
    ackAction := AckAction.nak 10000 }

/-- `nats.ts` `processMessage` (lines 198-272). `workspaceLoad` is the
outcome of `await loadWorkspace(...)` and `exec` the outcome of
`await executeTask(...)` (`Except.error` = the awaited call threw; note
`executeTask` catches query errors internally, so it only throws from the
code before its own `try`). The success path computes its reply subject at
lines 217-220 and acks; any throw reaches the shared `catch`. -/
def processMessage (workspaceLoad : Except String Unit) (exec : Except String TaskResult)
    (parseResult : Option Json) (data subject fleetId agentId : String) : ProcEffect :=
  match workspaceLoad with
  | Except.error e => errorPathEffect parseResult data subject fleetId agentId e
  | Except.ok _ =>
      match exec with
      | Except.error e => errorPathEffect parseResult data subject fleetId agentId e
      | Except.ok result =>
          let task := parseTaskMessage parseResult data subject
          let resultSubject :=
            jqqV task.metadata.replySubject
              (Json.str (fleetId ++ ".results." ++ taskIdSegment task.metadata.taskId))
          { publishes := [(resultSubject, Json.obj (successPayloadFields task agentId result))]
            ackAction := AckAction.ack }

/-- Fields of the single published payload of a `processMessage` effect. -/
def publishedFields (e : ProcEffect) : List (String × Json) :=
  match e.publishes with
  | [(_, Json.obj fields)] => fields
  | _ => []

/-- Subjects of the published payloads of a `processMessage` effect. -/
def publishedSubjects (e : ProcEffect) : List Json :=
  e.publishes.map Prod.fst

/-- Durable-consumer configuration passed to `jsm.consumers.add`
(`nats.ts` lines 151-158). -/
structure ConsumerCfg where
  durable_name : String
  filter_subject : String
  ack_policy : String
  deliver_policy : String
  max_deliver : Nat
  ack_wait : Nat
deriving DecidableEq

/-- The configuration built by `subscribeToTopic` for a topic: explicit ack,
deliver-new, three delivery attempts, ack-wait = task timeout plus a 30 s
buffer, in nanoseconds. -/
def consumerCfgFor (topic durableName : String) (taskTimeoutMs : Nat) : ConsumerCfg :=
  { durable_name := durableName
    filter_subject := topic
    ack_policy := "explicit"
    deliver_policy := "new"
    max_deliver := 3
    ack_wait := (taskTimeoutMs + 30000) * 1000000 }

/-- Stream name derivation (`nats.ts` line 147): dashes of the fleet id
become underscores, then `_tasks` is appended. -/
def streamNameFor (fleetId : String) : String :=
  String.mk (fleetId.data.map (fun c => if c = '-' then '_' else c)) ++ "_tasks"

/-- Durable name derivation (`nats.ts` line 148). -/
def durableNameFor (durableName : Option String) (agentId : String) : String :=
  durableName.getD (agentId ++ "-consumer")

/-- Consumers known to the JetStream server, keyed by stream and durable
name. -/
def BusState := List (String × ConsumerCfg)

/-- Model of the external `jsm.consumers.add` call: creating a durable
consumer whose name is already in use on the stream fails; otherwise the
consumer is recorded. -/
def busAdd (bs : BusState) (stream : String) (cfg : ConsumerCfg) :
    Except String BusState :=
  if bs.any (fun c => c.1 == stream && c.2.durable_name == cfg.durable_name) then
    Except.error "consumer name already in use"
  else
    Except.ok ((stream, cfg) :: bs)

/-- Whether a consumer with the given durable name exists on the stream. -/
def consumerExists (bs : BusState) (stream durableName : String) : Bool :=
  bs.any (fun c => c.1 == stream && c.2.durable_name == durableName)

/-- The consumer-ensure step of `subscribeToTopic` (`nats.ts` lines 150-162):
`try { jsm.consumers.add(...) } catch (error) { logger.debug(...) }`. Every
creation error is swallowed; the second component records the swallowed
error message, if any (it is only logged). -/
def ensureConsumer (bs : BusState) (stream : String) (cfg : ConsumerCfg) :
    BusState × Option String :=
  match busAdd bs stream cfg with
  | Except.ok bsNew => (bsNew, none)
  | Except.error e => (bs, some e)

/-- Outcome of one task, as seen by the `.finally` completion handler:
the counter update is identical for every outcome. -/
inductive TaskOutcome where
  | success : TaskOutcome
  | failure : TaskOutcome
  | timeout : TaskOutcome

/-- State of one subscription loop of `subscribeToTopic`: the `activeTasks`
counter (line 168) and the number of `processMessage` invocations admitted
but not yet completed. The counter is modelled as an integer so that
non-negativity is a real statement. -/
structure DState where
  active : Int
  running : Nat
deriving DecidableEq

/-- Small-step semantics of one subscription loop (`nats.ts` lines 170-195)
interleaved with task completions:
  * `acquire`: the loop observed `activeTasks < maxConcurrentTasks` (line 174;
    only this loop increments, and between its check and the increment only
    decrements can interleave, so the guard still holds at the increment),
    fetched a message and ran `activeTasks++` (line 182), spawning a task.
  * `complete`: a spawned task finished with some outcome and its `.finally`
    handler ran `activeTasks--` (line 186), exactly once per task. -/
inductive DStep (N : Nat) : DState → DState → Prop
  | acquire (s : DState) :
      s.active < (N : Int) →
      DStep N s { active := s.active + 1, running := s.running + 1 }
  | complete (s : DState) (o : TaskOutcome) :
      0 < s.running →
      DStep N s { active := s.active - 1, running := s.running - 1 }

/-- State of all subscription loops: `subscribeToTopic` is called once per
configured topic and each call creates its own `activeTasks` counter. -/
structure MState where
  loops : List DState
deriving DecidableEq

/-- Small-step semantics of the whole subscriber: each loop admits against
its own counter only. -/
inductive MStep (N : Nat) : MState → MState → Prop
  | acquire (s : MState) (i : Nat) (h : i < s.loops.length) :
      (s.loops[i]).active < (N : Int) →
      MStep N s
        ⟨s.loops.set i
          { active := (s.loops[i]).active + 1, running := (s.loops[i]).running + 1 }⟩
  | complete (s : MState) (i : Nat) (h : i < s.loops.length) (o : TaskOutcome) :
      0 < (s.loops[i]).running →
      MStep N s
        ⟨s.loops.set i
          { active := (s.loops[i]).active - 1, running := (s.loops[i]).running - 1 }⟩

/-- Initial subscriber state for `L` configured topics: every counter starts
at zero. -/
def mInit (L : Nat) : MState :=
  ⟨List.replicate L { active := 0, running := 0 }⟩

/-- Total number of simultaneously running `processMessage` invocations
across all subscription loops. -/
def totalRunning (s : MState) : Nat :=
  (s.loops.map DState.running).sum

/-! ### Helper lemmas -/

/-- A defined non-null left operand wins a nullish-coalescing chain. -/
theorem jqqV_some_of_ne_null (v : Json) (b : Json) (h : v ≠ Json.null) :
    jqqV (some v) b = v := by
  cases v with
  | null => exact absurd rfl h
  | bool _ => rfl
  | num _ => rfl
  | str _ => rfl
  | arr _ => rfl
  | obj _ => rfl

/-- A nullish-coalescing chain whose fallback is not `null` never yields
`null`. -/
theorem jqqV_isNull_false (a : Option Json) (b : Json) (hb : b.isNull = false) :
    (jqqV a b).isNull = false := by
  cases a with
  | none => exact hb
  | some v => cases v <;> first | rfl | exact hb

/-! ### Claim C5 (metadata field aliases) -/

/-- Claim C5 counterexample: a message carrying only the nested snake_case
`metadata.reply_subject` parses with `replySubject` undefined, while the same
value top-level as `reply_subject` is extracted — so nested snake_case is
not accepted for `replySubject`, refuting the claim as stated. -/
theorem c5_counterexample :
    (parseTaskMessage
        (some (Json.obj [("metadata", Json.obj [("reply_subject", Json.str "r.abc")])]))
        "\x7b\"metadata\":\x7b\"reply_subject\":\"r.abc\"\x7d\x7d"
        "fleet-a.tasks.ops.t1").metadata.replySubject = none
    ∧ (parseTaskMessage
        (some (Json.obj [("reply_subject", Json.str "r.abc")]))
        "\x7b\"reply_subject\":\"r.abc\"\x7d"
        "fleet-a.tasks.ops.t1").metadata.replySubject = some (Json.str "r.abc") :=
  ⟨rfl, rfl⟩

/-- Claim C5 amended: the accepted alias table of `parseTaskMessage`. Each
metadata field is accepted top-level and nested under `metadata` under its
camelCase name; the snake_case alias is additionally accepted for `taskId`
in both positions and for `replySubject` top-level only — nested
`metadata.reply_subject` is ignored. -/
theorem c5_alias_table : ∀ (s data subject : String),
    (parseTaskMessage (some (Json.obj [("replySubject", Json.str s)])) data subject).metadata.replySubject
      = some (Json.str s)
    ∧ (parseTaskMessage (some (Json.obj [("reply_subject", Json.str s)])) data subject).metadata.replySubject
      = some (Json.str s)
    ∧ (parseTaskMessage (some (Json.obj [("metadata", Json.obj [("replySubject", Json.str s)])])) data subject).metadata.replySubject
      = some (Json.str s)
    ∧ (parseTaskMessage (some (Json.obj [("metadata", Json.obj [("reply_subject", Json.str s)])])) data subject).metadata.replySubject
      = none
    ∧ (parseTaskMessage (some (Json.obj [("taskId", Json.str s)])) data subject).metadata.taskId
      = Json.str s
    ∧ (parseTaskMessage (some (Json.obj [("task_id", Json.str s)])) data subject).metadata.taskId
      = Json.str s
    ∧ (parseTaskMessage (some (Json.obj [("metadata", Json.obj [("taskId", Json.str s)])])) data subject).metadata.taskId
      = Json.str s
    ∧ (parseTaskMessage (some (Json.obj [("metadata", Json.obj [("task_id", Json.str s)])])) data subject).metadata.taskId
      = Json.str s
    ∧ (parseTaskMessage (some (Json.obj [("domain", Json.str s)])) data subject).metadata.domain
      = Json.str s
    ∧ (parseTaskMessage (some (Json.obj [("metadata", Json.obj [("domain", Json.str s)])])) data subject).metadata.domain
      = Json.str s
    ∧ (parseTaskMessage (some (Json.obj [("knight", Json.str s)])) data subject).metadata.knight
      = some (Json.str s)
    ∧ (parseTaskMessage (some (Json.obj [("metadata", Json.obj [("knight", Json.str s)])])) data subject).metadata.knight
      = some (Json.str s)
    ∧ (parseTaskMessage (some (Json.obj [("skill", Json.str s)])) data subject).metadata.skill
      = some (Json.str s)
    ∧ (parseTaskMessage (some (Json.obj [("metadata", Json.obj [("skill", Json.str s)])])) data subject).metadata.skill
      = some (Json.str s)
    ∧ (parseTaskMessage (some (Json.obj [("skillContent", Json.str s)])) data subject).metadata.skillContent
      = some (Json.str s)
    ∧ (parseTaskMessage (some (Json.obj [("metadata", Json.obj [("skillContent", Json.str s)])])) data subject).metadata.skillContent
      = some (Json.str s)
    ∧ (parseTaskMessage (some (Json.obj [("message", Json.str s)])) data subject).message
      = Json.str s
    ∧ (parseTaskMessage (some (Json.obj [("task", Json.str s)])) data subject).message
      = Json.str s := by
  intro s data subject
  exact ⟨rfl, rfl, rfl, rfl, rfl, rfl, rfl, rfl, rfl, rfl, rfl, rfl, rfl, rfl, rfl, rfl,
    rfl, rfl⟩

/-! ### Claim C6 (taskId alias equivalence) -/

/-- Claim C6: a defined, non-null taskId value is extracted unchanged from
any of the four accepted positions: top-level `taskId`, top-level `task_id`,
nested `metadata.taskId`, nested `metadata.task_id`. -/
theorem c6_taskid_aliases : ∀ (v : Json) (data subject : String), v ≠ Json.null →
    (parseTaskMessage (some (Json.obj [("taskId", v)])) data subject).metadata.taskId = v
    ∧ (parseTaskMessage (some (Json.obj [("task_id", v)])) data subject).metadata.taskId = v
    ∧ (parseTaskMessage (some (Json.obj [("metadata", Json.obj [("taskId", v)])])) data subject).metadata.taskId = v
    ∧ (parseTaskMessage (some (Json.obj [("metadata", Json.obj [("task_id", v)])])) data subject).metadata.taskId = v := by
  intro v data subject h
  refine ⟨?_, ?_, ?_, ?_⟩ <;> exact jqqV_some_of_ne_null v _ h

/-- Claim C6 witness: the string taskId `"abc"` extracted from all four
positions. -/
theorem c6_taskid_aliases_witness :
    (parseTaskMessage (some (Json.obj [("taskId", Json.str "abc")])) "d" "s").metadata.taskId = Json.str "abc"
    ∧ (parseTaskMessage (some (Json.obj [("task_id", Json.str "abc")])) "d" "s").metadata.taskId = Json.str "abc"
    ∧ (parseTaskMessage (some (Json.obj [("metadata", Json.obj [("taskId", Json.str "abc")])])) "d" "s").metadata.taskId = Json.str "abc"
    ∧ (parseTaskMessage (some (Json.obj [("metadata", Json.obj [("task_id", Json.str "abc")])])) "d" "s").metadata.taskId = Json.str "abc" :=
  c6_taskid_aliases (Json.str "abc") "d" "s" (fun h => Json.noConfusion h)

/-! ### Claim C7 (plain-text fallback and subject parsing) -/

/-- Claim C7: when the JSON parse fails, the whole payload becomes the task
text, taskId is the last dot-separated subject segment (default `"unknown"`
when absent) and domain is the third segment (default `"general"`); on
subject `fleet-a.tasks.security.t1` this gives domain `"security"` and
taskId `"t1"`. -/
theorem c7_plaintext_fallback : ∀ (data subject : String),
    (parseTaskMessage none data subject).message = Json.str data
    ∧ (parseTaskMessage none data subject).metadata.taskId
      = Json.str (match (splitDot subject).getLast? with | some s => s | none => "unknown")
    ∧ (parseTaskMessage none data subject).metadata.domain
      = Json.str ((splitDot subject).getD 2 "general")
    ∧ (parseTaskMessage none "plain text payload" "fleet-a.tasks.security.t1").metadata.domain
      = Json.str "security"
    ∧ (parseTaskMessage none "plain text payload" "fleet-a.tasks.security.t1").metadata.taskId
      = Json.str "t1" := by
  intro data subject
  exact ⟨rfl, rfl, rfl, rfl, rfl⟩

/-! ### Claim C10 (totality and metadata typing) -/

/-- Claim C10 counterexample: `parseTaskMessage` passes non-string JSON
values through, so a payload carrying `taskId: 42` yields a taskId that is
defined but not a string, refuting the claimed string typing. -/
theorem c10_counterexample :
    (parseTaskMessage (some (Json.obj [("taskId", Json.num 42)]))
        "\x7b\"taskId\": 42\x7d" "fleet-a.tasks.ops.t1").metadata.taskId = Json.num 42
    ∧ Json.isString ((parseTaskMessage (some (Json.obj [("taskId", Json.num 42)]))
        "\x7b\"taskId\": 42\x7d" "fleet-a.tasks.ops.t1").metadata.taskId) = false :=
  ⟨rfl, rfl⟩

/-- Claim C10 amended: `parseTaskMessage` is total — for every parse outcome
(parse failure, `null`, primitives, arrays, objects missing every field) it
returns a `TaskRequest`, and `metadata.taskId` and `metadata.domain` are
always defined and never `null`; on the plain-text path they are strings
derived from the subject. (They are not guaranteed to be strings when the
payload itself carries a non-string value.) -/
theorem c10_total_defined : ∀ (parseResult : Option Json) (data subject : String),
    Json.isNull ((parseTaskMessage parseResult data subject).metadata.taskId) = false
    ∧ Json.isNull ((parseTaskMessage parseResult data subject).metadata.domain) = false
    ∧ Json.isString ((parseTaskMessage none data subject).metadata.taskId) = true
    ∧ Json.isString ((parseTaskMessage none data subject).metadata.domain) = true := by
  intro parseResult data subject
  refine ⟨?_, ?_, rfl, rfl⟩
  · cases parseResult with
    | none => rfl
    | some p =>
      cases p <;>
        first
          | rfl
          | exact jqqV_isNull_false _ _ (jqqV_isNull_false _ _
              (jqqV_isNull_false _ _ (jqqV_isNull_false _ _ rfl)))
  · cases parseResult with
    | none => rfl
    | some p =>
      cases p <;>
        first
          | rfl
          | exact jqqV_isNull_false _ _ (jqqV_isNull_false _ _ rfl)

/-! ### Claim C1 (ack/nak policy and timeout handling) -/

/-- Claim C1 counterexample: a capability invocation cancelled at the
deadline (the query throws with the abort signal set) is caught inside
`executeTask`, which returns a `TaskResult` with `success = false` and the
timeout classification — but `processMessage` then takes its success path
and acknowledges the message instead of negative-acknowledging it. -/
theorem c1_counterexample :
    (executeTaskCore (QueryOutcome.throws "This operation was aborted" true none 0 0 0 none)
        "t1" 100).1.success = false
    ∧ (executeTaskCore (QueryOutcome.throws "This operation was aborted" true none 0 0 0 none)
        "t1" 100).2 = "timeout"
    ∧ (processMessage (Except.ok ())
        (Except.ok (executeTaskCore
          (QueryOutcome.throws "This operation was aborted" true none 0 0 0 none) "t1" 100).1)
        (some (Json.obj [("message", Json.str "ping"), ("taskId", Json.str "t1")]))
        "\x7b\"message\":\"ping\",\"taskId\":\"t1\"\x7d"
        "fleet-a.tasks.ops.t1" "fleet-a" "knight").ackAction = AckAction.ack :=
  ⟨rfl, rfl, rfl⟩

/-- Claim C1 amended: a `TaskResult` is always published; the message is
acknowledged whenever `executeTask` returns a result — including a deadline
cancellation, which yields `success = false` with the timeout classification
but is still acknowledged — and negative-acknowledged with a fixed 10 000 ms
delay only when an exception escapes the processing pipeline (workspace
reload failure, or a throw in `executeTask` before its internal try/catch). -/
theorem c1_ack_policy : ∀ (r : TaskResult) (e : String) (parseResult : Option Json)
    (data subject fleetId agentId : String) (m : String) (sdkE : Option String)
    (c it ot : Int) (mo : Option String) (tid : String) (d : Int),
    (processMessage (Except.ok ()) (Except.ok r) parseResult data subject fleetId agentId).ackAction
      = AckAction.ack
    ∧ (processMessage (Except.ok ()) (Except.ok r) parseResult data subject fleetId agentId).publishes.length = 1
    ∧ (processMessage (Except.ok ()) (Except.error e) parseResult data subject fleetId agentId).ackAction
      = AckAction.nak 10000
    ∧ (processMessage (Except.ok ()) (Except.error e) parseResult data subject fleetId agentId).publishes.length = 1
    ∧ (processMessage (Except.error e) (Except.ok r) parseResult data subject fleetId agentId).ackAction
      = AckAction.nak 10000
    ∧ (processMessage (Except.error e) (Except.ok r) parseResult data subject fleetId agentId).publishes.length = 1
    ∧ (executeTaskCore (QueryOutcome.throws m true sdkE c it ot mo) tid d).1.success = false
    ∧ (executeTaskCore (QueryOutcome.throws m true sdkE c it ot mo) tid d).2 = "timeout" := by
  intro r e parseResult data subject fleetId agentId m sdkE c it ot mo tid d
  exact ⟨rfl, rfl, rfl, rfl, rfl, rfl, rfl, rfl⟩

/-! ### Claim C4 (outbound result contract) -/

/-- Claim C4 counterexample: the error-path publish (a result is published,
with the parsed taskId) carries no `durationMs` key, violating the outbound
result contract that requires it. -/
theorem c4_counterexample :
    lookupField (publishedFields (processMessage (Except.ok ()) (Except.error "boom")
        (some (Json.obj [("message", Json.str "ping"), ("taskId", Json.str "t1")]))
        "\x7b\"message\":\"ping\",\"taskId\":\"t1\"\x7d"
        "fleet-a.tasks.ops.t1" "fleet-a" "knight")) "durationMs" = none
    ∧ lookupField (publishedFields (processMessage (Except.ok ()) (Except.error "boom")
        (some (Json.obj [("message", Json.str "ping"), ("taskId", Json.str "t1")]))
        "\x7b\"message\":\"ping\",\"taskId\":\"t1\"\x7d"
        "fleet-a.tasks.ops.t1" "fleet-a" "knight")) "taskId" = some (Json.str "t1")
    ∧ (processMessage (Except.ok ()) (Except.error "boom")
        (some (Json.obj [("message", Json.str "ping"), ("taskId", Json.str "t1")]))
        "\x7b\"message\":\"ping\",\"taskId\":\"t1\"\x7d"
        "fleet-a.tasks.ops.t1" "fleet-a" "knight").publishes.length = 1 :=
  ⟨rfl, rfl, rfl⟩

/-- Claim C4 amended: the success-path payload carries the full contract —
`taskId` (the parsed value), `knight` (string), `success` (bool), `output`
(string) and `durationMs` (number), with `error`, `cost`, `tokens`, `model`
optional; the error-path payload carries `taskId`, `knight`, `success`,
`error` and `output` but omits `durationMs`. -/
theorem c4_result_contract : ∀ (r : TaskResult) (parseResult : Option Json)
    (data subject fleetId agentId e : String),
    lookupField (publishedFields (processMessage (Except.ok ()) (Except.ok r)
        parseResult data subject fleetId agentId)) "taskId"
      = some ((parseTaskMessage parseResult data subject).metadata.taskId)
    ∧ lookupField (publishedFields (processMessage (Except.ok ()) (Except.ok r)
        parseResult data subject fleetId agentId)) "knight" = some (Json.str agentId)
    ∧ lookupField (publishedFields (processMessage (Except.ok ()) (Except.ok r)
        parseResult data subject fleetId agentId)) "success" = some (Json.bool r.success)
    ∧ lookupField (publishedFields (processMessage (Except.ok ()) (Except.ok r)
        parseResult data subject fleetId agentId)) "output" = some (Json.str r.output)
    ∧ lookupField (publishedFields (processMessage (Except.ok ()) (Except.ok r)
        parseResult data subject fleetId agentId)) "durationMs" = some (Json.num r.durationMs)
    ∧ lookupField (publishedFields (processMessage (Except.ok ()) (Except.error e)
        parseResult data subject fleetId agentId)) "taskId"
      = some ((parseTaskMessage parseResult data subject).metadata.taskId)
    ∧ lookupField (publishedFields (processMessage (Except.ok ()) (Except.error e)
        parseResult data subject fleetId agentId)) "knight" = some (Json.str agentId)
    ∧ lookupField (publishedFields (processMessage (Except.ok ()) (Except.error e)
        parseResult data subject fleetId agentId)) "success" = some (Json.bool false)
    ∧ lookupField (publishedFields (processMessage (Except.ok ()) (Except.error e)
        parseResult data subject fleetId agentId)) "error" = some (Json.str e)
    ∧ lookupField (publishedFields (processMessage (Except.ok ()) (Except.error e)
        parseResult data subject fleetId agentId)) "output" = some (Json.str "")
    ∧ lookupField (publishedFields (processMessage (Except.ok ()) (Except.error e)
        parseResult data subject fleetId agentId)) "durationMs" = none := by
  intro r parseResult data subject fleetId agentId e
  obtain ⟨su, out, err, tid, cst, tok, dur, mdl⟩ := r
  refine ⟨rfl, rfl, rfl, rfl, ?_, rfl, rfl, rfl, rfl, rfl, rfl⟩
  cases err <;> cases cst <;> cases tok <;> rfl

/-! ### Claim C8 (reply-subject computation) -/

/-- Claim C8: on the success path and on both error paths alike, the
published reply subject is the explicit `replySubject` from metadata when
defined and non-null, and `{fleetId}.results.{taskId}` otherwise, with
`"unknown"` substituted for a null/missing taskId by the template
interpolation. -/
theorem c8_reply_subject : ∀ (r : TaskResult) (parseResult : Option Json)
    (data subject fleetId agentId e w : String),
    publishedSubjects (processMessage (Except.ok ()) (Except.ok r) parseResult data subject fleetId agentId)
      = [jqqV (parseTaskMessage parseResult data subject).metadata.replySubject
          (Json.str (fleetId ++ ".results." ++
            taskIdSegment (parseTaskMessage parseResult data subject).metadata.taskId))]
    ∧ publishedSubjects (processMessage (Except.ok ()) (Except.error e) parseResult data subject fleetId agentId)
      = [jqqV (parseTaskMessage parseResult data subject).metadata.replySubject
          (Json.str (fleetId ++ ".results." ++
            taskIdSegment (parseTaskMessage parseResult data subject).metadata.taskId))]
    ∧ publishedSubjects (processMessage (Except.error w) (Except.ok r) parseResult data subject fleetId agentId)
      = [jqqV (parseTaskMessage parseResult data subject).metadata.replySubject
          (Json.str (fleetId ++ ".results." ++
            taskIdSegment (parseTaskMessage parseResult data subject).metadata.taskId))]
    ∧ publishedSubjects (processMessage (Except.ok ()) (Except.ok r)
        (some (Json.obj [("replySubject", Json.str "r.abc")])) data subject fleetId agentId)
      = [Json.str "r.abc"]
    ∧ publishedSubjects (processMessage (Except.ok ()) (Except.ok r)
        (some (Json.obj [("taskId", Json.str "t1")])) data subject fleetId agentId)
      = [Json.str (fleetId ++ ".results." ++ "t1")]
    ∧ taskIdSegment Json.null = "unknown" := by
  intro r parseResult data subject fleetId agentId e w
  exact ⟨rfl, rfl, rfl, rfl, rfl, rfl⟩

/-! ### Claim C9 (idempotent consumer creation) -/

/-- Claim C9: the consumer-ensure step never lets a creation error escape —
after one invocation the consumer exists, and a second invocation with the
identical descriptor hits the already-exists error, swallows it (it is only
logged), and leaves the consumer state unchanged. -/
theorem c9_idempotent_ensure : ∀ (bs : BusState) (stream : String) (cfg : ConsumerCfg),
    (ensureConsumer (ensureConsumer bs stream cfg).1 stream cfg).1
      = (ensureConsumer bs stream cfg).1
    ∧ consumerExists (ensureConsumer bs stream cfg).1 stream cfg.durable_name = true
    ∧ (ensureConsumer (ensureConsumer bs stream cfg).1 stream cfg).2
      = some "consumer name already in use" := by
  intro bs stream cfg
  by_cases h : (bs.any fun c => c.1 == stream && c.2.durable_name == cfg.durable_name) = true
  · simp [ensureConsumer, busAdd, consumerExists, h]
  · simp [ensureConsumer, busAdd, consumerExists, h]

/-! ### Claims C2 and C3 (concurrency gate) -/

/-- Sum of per-loop running counts is bounded by loop count times a
pointwise bound. -/
theorem sumRunningLe (l : List DState) (N : Nat) (h : ∀ st ∈ l, st.running ≤ N) :
    (l.map DState.running).sum ≤ l.length * N := by
  induction l with
  | nil => simp
  | cons x xs ih =>
      simp only [List.map_cons, List.sum_cons, List.length_cons]
      have hx : x.running ≤ N := h x (List.mem_cons_self x xs)
      have hxs := ih (fun st hst => h st (List.mem_cons_of_mem x hst))
      calc x.running + (xs.map DState.running).sum
          ≤ N + xs.length * N := Nat.add_le_add hx hxs
        _ = (xs.length + 1) * N := by ring

/-- Invariant of the multi-loop subscriber: loop count is preserved, each
counter equals the number of running tasks of its own loop, and each counter
is bounded by the configured maximum. -/
theorem mstep_invariant (N L : Nat) (s : MState)
    (h : Relation.ReflTransGen (MStep N) (mInit L) s) :
    s.loops.length = L
    ∧ ∀ st ∈ s.loops, st.active = (st.running : Int) ∧ st.active ≤ (N : Int) := by
  induction h with
  | refl =>
      refine ⟨by simp [mInit], ?_⟩
      intro st hst
      have hst0 : st = ⟨0, 0⟩ := List.eq_of_mem_replicate hst
      subst hst0
      exact ⟨rfl, Int.ofNat_nonneg N⟩
  | @tail b c hab hbc ih =>
      obtain ⟨hlen, hinv⟩ := ih
      cases hbc with
      | acquire i hi hg =>
          refine ⟨by rw [List.length_set]; exact hlen, ?_⟩
          intro st hst
          rcases List.mem_or_eq_of_mem_set hst with hmem | hnew
          · exact hinv st hmem
          · subst hnew
            obtain ⟨e1, e2⟩ := hinv (b.loops[i]) (List.getElem_mem hi)
            constructor
            · show (b.loops[i]).active + 1 = (((b.loops[i]).running + 1 : Nat) : Int)
              omega
            · show (b.loops[i]).active + 1 ≤ (N : Int)
              omega
      | complete i hi o hg =>
          refine ⟨by rw [List.length_set]; exact hlen, ?_⟩
          intro st hst
          rcases List.mem_or_eq_of_mem_set hst with hmem | hnew
          · exact hinv st hmem
          · subst hnew
            obtain ⟨e1, e2⟩ := hinv (b.loops[i]) (List.getElem_mem hi)
            constructor
            · show (b.loops[i]).active - 1 = (((b.loops[i]).running - 1 : Nat) : Int)
              omega
            · show (b.loops[i]).active - 1 ≤ (N : Int)
              omega

/-- Claim C2 counterexample: with max-concurrent 1 and two subscribed
subjects, each loop admits against its own counter, so a state with two
simultaneously running tasks is reachable — more than the configured
maximum across all subjects, refuting the process-wide reading of the gate. -/
theorem c2_counterexample :
    Relation.ReflTransGen (MStep 1) (mInit 2) ⟨[⟨1, 1⟩, ⟨1, 1⟩]⟩
    ∧ totalRunning ⟨[⟨1, 1⟩, ⟨1, 1⟩]⟩ = 2
    ∧ 1 < totalRunning ⟨[⟨1, 1⟩, ⟨1, 1⟩]⟩ := by
  refine ⟨?_, rfl, by decide⟩
  exact Relation.ReflTransGen.head
    (MStep.acquire (mInit 2) 0 (by decide) (by decide))
    (Relation.ReflTransGen.single
      (MStep.acquire ⟨[⟨1, 1⟩, ⟨0, 0⟩]⟩ 1 (by decide) (by decide)))

/-- Claim C2 amended: the gate is per-subscription — each `subscribeToTopic`
loop owns its counter, a loop only admits while its own counter is below the
configured maximum N (so the remaining messages of that subject are fetched
only once its capacity frees), and therefore every reachable state keeps
each loop at most N and the process total at most L·N for L subscribed
subjects, not N. -/
theorem c2_per_loop_bound : ∀ (N L : Nat) (s : MState),
    Relation.ReflTransGen (MStep N) (mInit L) s →
    s.loops.length = L
    ∧ (∀ st ∈ s.loops, st.active = (st.running : Int) ∧ st.active ≤ (N : Int))
    ∧ totalRunning s ≤ L * N := by
  intro N L s h
  obtain ⟨hlen, hinv⟩ := mstep_invariant N L s h
  refine ⟨hlen, hinv, ?_⟩
  have hb : ∀ st ∈ s.loops, st.running ≤ N := by
    intro st hst
    obtain ⟨e1, e2⟩ := hinv st hst
    omega
  calc totalRunning s = (s.loops.map DState.running).sum := rfl
    _ ≤ s.loops.length * N := sumRunningLe s.loops N hb
    _ = L * N := by rw [hlen]

/-- Claim C2 amended witness: the bound evaluated at the two-subject initial
state with max-concurrent 1. -/
theorem c2_per_loop_bound_witness : totalRunning (mInit 2) ≤ 2 * 1 :=
  (c2_per_loop_bound 1 2 (mInit 2) Relation.ReflTransGen.refl).2.2

/-- Claim C3: within one subscription loop, the counter is incremented
exactly once per admission and decremented exactly once per completion
(whatever the outcome), so in every reachable state the counter equals the
number of in-flight tasks — hence it returns to its pre-admission baseline
once those tasks complete — and it never goes negative. -/
theorem c3_gate_invariant : ∀ (N : Nat) (s : DState),
    Relation.ReflTransGen (DStep N) ⟨0, 0⟩ s →
    s.active = (s.running : Int) ∧ 0 ≤ s.active := by
  intro N s h
  induction h with
  | refl => exact ⟨rfl, le_refl 0⟩
  | @tail b c hab hbc ih =>
      obtain ⟨e1, e2⟩ := ih
      cases hbc with
      | acquire hg =>
          constructor
          · show b.active + 1 = ((b.running + 1 : Nat) : Int)
            omega
          · show (0 : Int) ≤ b.active + 1
            omega
      | complete o hg =>
          constructor
          · show b.active - 1 = ((b.running - 1 : Nat) : Int)
            omega
          · show (0 : Int) ≤ b.active - 1
            omega

/-- Claim C3 witness: the invariant at the state reached after a single
admission. -/
theorem c3_gate_invariant_witness :
    (DState.mk 1 1).active = ((DState.mk 1 1).running : Int) ∧ 0 ≤ (DState.mk 1 1).active :=
  c3_gate_invariant 1 ⟨1, 1⟩
    (Relation.ReflTransGen.single (DStep.acquire ⟨0, 0⟩ (by decide)))
